import Mathlib

/-!
Verification of the sport_facility_system Odoo module (src/models/*.py)
against its natural-language specification.

Shallow embedding conventions:
* Datetimes are minutes since an epoch (`Int`); a day is 1440 minutes, so
  `dateOf t = t / 1440` (Euclidean division) is the date, matching Python
  floor division, and `hourOfDay` recovers `hour + minute / 60` as used by
  `validate_operating_hours`.
* Monetary amounts, rates and durations are exact rationals; `float_round
  (x, precision_digits=2)` is `round2` (half-up at 2 decimals).  The
  concrete values appearing in claims are all exactly representable, so
  the rational model agrees with the float code on them.
* An Odoo `ValidationError` / `UserError` aborts the enclosing database
  transaction, rolling back every pending write; operations are therefore
  `Except String`: an `.error` result leaves the pre-state unchanged.
* `@api.constrains` handlers fire on create and on every write touching a
  listed field.  In particular `check_facility_availability` constrains
  `status`, so every status write (including the ones in `action_complete`,
  `action_cancel` and `action_reset_to_draft`) re-runs the overlap check
  for the written record.
* Many2many equipment sets hold distinct records, and each record of the
  set is checked out / returned with quantity 1.  `action_confirm` collects
  all checkout errors and raises if any occurred, which (with rollback)
  is all-or-nothing; `checkoutAll` / `returnAll` model that net effect
  pointwise over the equipment table.
* Fields irrelevant to the claims (booking_reference, notes, active,
  company, currency, mail templates, logging) are not modelled.
-/

namespace SportFacility

/-- Booking status selection from `sports.booking.status`. -/
inductive BookingStatus where
  | draft
  | confirmed
  | completed
  | cancelled
deriving DecidableEq, Repr

/-- Recurrence type selection from `sports.booking.recurrence_type`. -/
inductive RecurrenceType where
  | daily
  | weekly
  | monthly
deriving DecidableEq, Repr

/-- Membership status selection from `sports.membership.status`. -/
inductive MembershipStatus where
  | active
  | expired
  | cancelled
deriving DecidableEq, Repr

/-- Payment status selection from `sports.membership.payment_status`. -/
inductive PaymentStatus where
  | paid
  | pending
deriving DecidableEq, Repr

/-- Waitlist status selection from `sports.waitlist.status`. -/
inductive WaitlistStatus where
  | waiting
  | notified
  | booked
  | expired
deriving DecidableEq, Repr

/-- `sports.facility` (facility.py), restricted to the fields the claims use.
`operating_hours_start` and `operating_hours_end` are fractional hours. -/
structure Facility where
  id : Nat
  hourly_rate : ℚ
  operating_hours_start : ℚ
  operating_hours_end : ℚ
deriving DecidableEq, Repr

/-- `sports.equipment` (equipment.py), restricted to the fields the claims
use.  Quantities are `Int`, as in Python; the SQL constraints bound them
but are stated as hypotheses in the theorems. -/
structure Equipment where
  id : Nat
  rental_rate : ℚ
  quantity_available : Int
  total_quantity : Int
deriving DecidableEq, Repr

/-- `sports.membership` (membership.py), restricted to the fields read by
`_compute_total_cost`.  Dates are day numbers. -/
structure Membership where
  member_id : Nat
  status : MembershipStatus
  payment_status : PaymentStatus
  start_date : Int
  end_date : Int
  discount_percentage : ℚ
deriving DecidableEq, Repr

/-- `sports.booking` (booking.py), restricted to the fields the claims use.
`duration` and `total_cost` are computed stored fields: `create_booking`
recomputes them, mirroring the ORM dependency graph. -/
structure Booking where
  id : Nat
  facility_id : Nat
  customer_id : Nat
  start_datetime : Int
  end_datetime : Int
  duration : ℚ
  total_cost : ℚ
  status : BookingStatus
  equipment_ids : List Nat
  is_recurring : Bool
  recurrence_type : Option RecurrenceType
  recurrence_count : Int
  recurrence_end_date : Option Int
  parent_booking_id : Option Nat
deriving DecidableEq, Repr

/-- `sports.waitlist` (waitlist.py), restricted to the fields read by
`auto_assign_from_waitlist`.  `create_date` is the FIFO key. -/
structure WaitlistEntry where
  id : Nat
  customer_id : Nat
  facility_id : Nat
  preferred_date : Option Int
  status : WaitlistStatus
  notification_sent : Bool
  create_date : Int
deriving DecidableEq, Repr

/-- Static environment: the facility table (total by id), the equipment
table, the membership table, and the calendar month-addition used by
`relativedelta(months=1)` for monthly recurrence, which is left abstract
(no claim exercises it). -/
structure Env where
  fac : Nat → Facility
  equips : List Equipment
  membs : List Membership
  monthStep : Int → Int

/-- Day number of a datetime (Python `datetime.date()`). -/
def dateOf (t : Int) : Int := Int.ediv t 1440

/-- `hour + minute / 60.0` of a datetime, as computed in
`validate_operating_hours` and `auto_assign_from_waitlist`. -/
def hourOfDay (t : Int) : ℚ := ((Int.emod t 1440 : Int) : ℚ) / 60

/-- `odoo.tools.float_round(x, precision_digits=2)` (half-up). -/
def round2 (q : ℚ) : ℚ := ((⌊q * 100 + 1/2⌋ : ℤ) : ℚ) / 100

/-- `_compute_duration` (booking.py lines 168-197): hours between start and
end, rounded to 2 decimals.  Both endpoints are converted to the same user
timezone before subtracting, so the difference equals the UTC difference. -/
def compute_duration (b : Booking) : ℚ :=
  round2 (((b.end_datetime - b.start_datetime : Int) : ℚ) / 60)

/-- Record lookup in the equipment table (ORM browse by id). -/
def getEquip (es : List Equipment) (i : Nat) : Option Equipment :=
  es.find? (fun e => e.id == i)

/-- Rental rate of an equipment id (`equipment.rental_rate or 0.0`). -/
def rateOf (es : List Equipment) (i : Nat) : ℚ :=
  ((getEquip es i).map Equipment.rental_rate).getD 0

/-- The `sports.membership` search in `_compute_total_cost` (booking.py
lines 229-235): first membership of the customer that is active, paid, and
whose date range contains the booking start date. -/
def findActiveMembership (ms : List Membership) (cust : Nat) (day : Int) :
    Option Membership :=
  ms.find? (fun m =>
    m.member_id == cust && m.status == MembershipStatus.active &&
    decide (m.start_date ≤ day) && decide (day ≤ m.end_date) &&
    m.payment_status == PaymentStatus.paid)

/-- Discount percentage applied to a booking: the found membership's
`discount_percentage or 0.0`, else `0.0`. -/
def discountFor (env : Env) (b : Booking) : ℚ :=
  match findActiveMembership env.membs b.customer_id (dateOf b.start_datetime) with
  | some m => m.discount_percentage
  | none => 0

/-- `_compute_total_cost` (booking.py lines 202-246): facility rate times
duration, plus each attached equipment's rental rate times duration, then
a single multiplicative membership discount when both the discount and the
subtotal are positive, clamped to be nonnegative and rounded to 2 decimals.
The source guards the two cost contributions by truthiness of
`record.duration` and `record.equipment_ids`; those guards only skip terms
that are zero anyway, so they are dropped here. -/
def compute_total_cost (env : Env) (b : Booking) : ℚ :=
  let total : ℚ :=
    (env.fac b.facility_id).hourly_rate * b.duration +
      (b.equipment_ids.map (fun i => rateOf env.equips i * b.duration)).sum
  let discount_percentage := discountFor env b
  let total2 :=
    if 0 < discount_percentage ∧ 0 < total then
      total - total * discount_percentage / 100
    else total
  round2 (max 0 total2)

/-- `validate_booking_dates` (booking.py lines 248-258): true when no
`ValidationError` is raised, i.e. end is strictly after start. -/
def validate_booking_dates (b : Booking) : Bool :=
  decide (b.start_datetime < b.end_datetime)

/-- The statuses counted as occupying a slot (`status in [draft, confirmed]`). -/
def isActiveStatus : BookingStatus → Bool
  | .draft => true
  | .confirmed => true
  | _ => false

/-- `check_facility_availability` (booking.py lines 260-285): true when no
`ValidationError` is raised, i.e. no other booking (different id) on the
same facility with status draft or confirmed overlaps the half-open
interval of `b`.  The same search is repeated in `action_confirm`
(lines 364-377). -/
def check_facility_availability (st : List Booking) (b : Booking) : Bool :=
  !(st.any (fun o =>
    o.id != b.id && o.facility_id == b.facility_id && isActiveStatus o.status &&
    decide (o.start_datetime < b.end_datetime) &&
    decide (o.end_datetime > b.start_datetime)))

/-- `validate_operating_hours` (booking.py lines 287-349): true when no
`ValidationError` is raised.  The source distinguishes single-day bookings
from multi-day bookings, but both branches perform the identical checks:
start time-of-day not before `operating_hours_start` and end time-of-day
not after `operating_hours_end`; the branch structure is kept verbatim. -/
def validate_operating_hours (f : Facility) (b : Booking) : Bool :=
  let start_time := hourOfDay b.start_datetime
  let end_time := hourOfDay b.end_datetime
  if dateOf b.start_datetime = dateOf b.end_datetime then
    !(decide (start_time < f.operating_hours_start)) &&
      !(decide (end_time > f.operating_hours_end))
  else
    !(decide (start_time < f.operating_hours_start)) &&
      !(decide (end_time > f.operating_hours_end))

/-- Modelled from the spec (claim C8 wording): a per-day operating-hours
violation for the span of a booking.  On each day of the span the booked
time-of-day runs from the start time (on the first day; otherwise 0:00)
to the end time (on the last day; otherwise 24:00); a violation is a day
whose booked start time is before opening or whose booked end time is
after closing.  This definition follows the claim's words, not the code,
and exists to be compared with `validate_operating_hours`. -/
def specPerDayViolation (f : Facility) (b : Booking) : Bool :=
  let d0 := dateOf b.start_datetime
  let d1 := dateOf b.end_datetime
  (List.range ((d1 - d0).toNat + 1)).any (fun k =>
    let d := d0 + (k : Int)
    let dayStart : ℚ := if d = d0 then hourOfDay b.start_datetime else 0
    let dayEnd : ℚ := if d = d1 then hourOfDay b.end_datetime else 24
    decide (dayStart < f.operating_hours_start) ||
      decide (dayEnd > f.operating_hours_end))

/-- `check_availability` (equipment.py lines 128-136). -/
def check_availability (e : Equipment) (quantity : Int) : Bool :=
  decide (e.quantity_available ≥ quantity)

/-- `checkout_equipment` (equipment.py lines 138-155): raises `UserError`
when the requested quantity is not available, otherwise decrements
`quantity_available`. -/
def checkout_equipment (e : Equipment) (quantity : Int) : Except String Equipment :=
  if !(check_availability e quantity) then
    .error "Insufficient quantity available."
  else
    .ok { e with quantity_available := e.quantity_available - quantity }

/-- `return_equipment` (equipment.py lines 157-175): raises
`ValidationError` when the return would exceed `total_quantity`, otherwise
increments `quantity_available`. -/
def return_equipment (e : Equipment) (quantity : Int) : Except String Equipment :=
  let new_available := e.quantity_available + quantity
  if decide (new_available > e.total_quantity) then
    .error "Return quantity would exceed total quantity."
  else
    .ok { e with quantity_available := new_available }

/-- True when every equipment record of the booking's many2many set can be
checked out with quantity 1, i.e. `checkout_equipment(quantity=1)` raises
for none of them. -/
def canCheckoutAll (es : List Equipment) (ids : List Nat) : Bool :=
  ids.all (fun i =>
    match getEquip es i with
    | some e => check_availability e 1
    | none => false)

/-- The equipment checkout loop of `action_confirm` (booking.py lines
379-390): every attached equipment record is checked out with quantity 1;
errors are collected and a `ValidationError` is raised if any occurred,
which rolls the transaction back.  The net effect is therefore
all-or-nothing: decrement every attached record by 1, or fail and change
nothing.  The many2many set holds distinct records, so the pointwise map
is exactly the loop's effect. -/
def checkoutAll (es : List Equipment) (ids : List Nat) :
    Except String (List Equipment) :=
  if canCheckoutAll es ids then
    .ok (es.map (fun e =>
      if ids.contains e.id then
        { e with quantity_available := e.quantity_available - 1 }
      else e))
  else .error "Equipment checkout failed"

/-- True when every equipment record of the set can be returned with
quantity 1 without exceeding `total_quantity`. -/
def canReturnAll (es : List Equipment) (ids : List Nat) : Bool :=
  ids.all (fun i =>
    match getEquip es i with
    | some e => decide (e.quantity_available + 1 ≤ e.total_quantity)
    | none => false)

/-- The equipment return loop of `action_complete` (booking.py lines
443-454) and `action_cancel` (lines 477-488): the all-or-nothing net
effect of returning every attached record with quantity 1. -/
def returnAll (es : List Equipment) (ids : List Nat) :
    Except String (List Equipment) :=
  if canReturnAll es ids then
    .ok (es.map (fun e =>
      if ids.contains e.id then
        { e with quantity_available := e.quantity_available + 1 }
      else e))
  else .error "Equipment return failed"

/-- Next id handed out by the database sequence: one more than the largest
id in the table. -/
def freshId (st : List Booking) : Nat :=
  (st.map Booking.id).foldr Nat.max 0 + 1

/-- `SportsBooking.create` (booking.py lines 162-166) followed by the
`@api.constrains` validations that fire on create: the new record gets a
fresh id and its stored computed fields (`duration`, `total_cost`) are
recomputed; then `validate_booking_dates`, `check_facility_availability`
and `validate_operating_hours` must all pass, otherwise the transaction
rolls back.  Returns the new table and the created record. -/
def create_booking (env : Env) (st : List Booking) (vals : Booking) :
    Except String (List Booking × Booking) :=
  let b1 := { vals with id := freshId st, duration := compute_duration vals }
  let b := { b1 with total_cost := compute_total_cost env b1 }
  if validate_booking_dates b && check_facility_availability st b &&
      validate_operating_hours (env.fac b.facility_id) b then
    .ok (st ++ [b], b)
  else .error "Booking constraints failed"

/-- A client write of a booking record that may touch the constrained
fields (dates, facility, status): the record with the written id is
replaced and all three `@api.constrains` validations re-run against the
rest of the table. -/
def write_booking (env : Env) (st : List Booking) (b2 : Booking) :
    Except String (List Booking) :=
  if validate_booking_dates b2 && check_facility_availability st b2 &&
      validate_operating_hours (env.fac b2.facility_id) b2 then
    .ok (st.map (fun o => if o.id == b2.id then b2 else o))
  else .error "Booking constraints failed"

/-- `action_confirm` (booking.py lines 351-430) on one record: requires
status draft, re-checks facility availability (the same search as the
constraint), checks out every attached equipment record, then writes
status confirmed (whose constraint re-fires the identical availability
check).  Mail sending is logged and swallowed; recurring generation is
modelled separately by `generate_recurring_bookings`. -/
def action_confirm (st : List Booking) (es : List Equipment) (b : Booking) :
    Except String (Booking × List Equipment) :=
  if b.status ≠ BookingStatus.draft then
    .error "Only draft bookings can be confirmed."
  else if !(check_facility_availability st b) then
    .error "Facility is no longer available for this time slot."
  else
    match checkoutAll es b.equipment_ids with
    | .error m => .error m
    | .ok es2 => .ok ({ b with status := BookingStatus.confirmed }, es2)

/-- `action_complete` (booking.py lines 432-459): requires status
confirmed, returns every attached equipment record, then writes status
completed; that status write re-fires `check_facility_availability`. -/
def action_complete (st : List Booking) (es : List Equipment) (b : Booking) :
    Except String (Booking × List Equipment) :=
  if b.status ≠ BookingStatus.confirmed then
    .error "Only confirmed bookings can be completed."
  else
    match returnAll es b.equipment_ids with
    | .error m => .error m
    | .ok es2 =>
      if check_facility_availability st { b with status := BookingStatus.completed } then
        .ok ({ b with status := BookingStatus.completed }, es2)
      else .error "Booking constraints failed"

/-- `action_cancel` (booking.py lines 461-554): forbidden from completed;
returns equipment when the original status was confirmed; computes the
tiered refund percentage and amount when the original status was
confirmed, the total cost positive and the start still in the future;
then writes status cancelled (re-firing the availability constraint).
Returns the cancelled record, the equipment table, and the refund
percentage and amount recorded in the cancellation note. -/
def action_cancel (now : Int) (st : List Booking) (es : List Equipment)
    (b : Booking) : Except String (Booking × List Equipment × ℚ × ℚ) :=
  if b.status = BookingStatus.completed then
    .error "Completed bookings cannot be cancelled."
  else
    let esR : Except String (List Equipment) :=
      if b.status = BookingStatus.confirmed then returnAll es b.equipment_ids
      else .ok es
    match esR with
    | .error m => .error m
    | .ok es2 =>
      let hours_until_booking : ℚ := ((b.start_datetime - now : Int) : ℚ) / 60
      let refund_percentage : ℚ :=
        if b.status = BookingStatus.confirmed ∧ 0 < b.total_cost ∧
            now < b.start_datetime then
          if 48 ≤ hours_until_booking then 100
          else if 24 ≤ hours_until_booking then 50
          else if 12 ≤ hours_until_booking then 25
          else 0
        else 0
      let refund_amount := b.total_cost * refund_percentage / 100
      if check_facility_availability st { b with status := BookingStatus.cancelled } then
        .ok ({ b with status := BookingStatus.cancelled }, es2,
             refund_percentage, refund_amount)
      else .error "Booking constraints failed"

/-- `action_reset_to_draft` (booking.py lines 845-851): raises for
completed bookings, otherwise writes status draft.  The status write
re-fires `check_facility_availability`; nothing touches equipment. -/
def action_reset_to_draft (st : List Booking) (b : Booking) :
    Except String Booking :=
  if b.status = BookingStatus.completed then
    .error "Completed bookings cannot be reset to draft."
  else if check_facility_availability st { b with status := BookingStatus.draft } then
    .ok { b with status := BookingStatus.draft }
  else .error "Booking constraints failed"

/-- The waitlist search filter of `auto_assign_from_waitlist` (booking.py
lines 583-591): same facility, status waiting, and preferred date unset or
within the closed range. -/
def waitlistMatch (fid : Nat) (dmin dmax : Int) (w : WaitlistEntry) : Bool :=
  w.facility_id == fid && w.status == WaitlistStatus.waiting &&
    (match w.preferred_date with
     | none => true
     | some d => decide (dmin ≤ d) && decide (d ≤ dmax))

/-- `search(..., order=create_date asc, limit=1)`: the entry with the
smallest `create_date`; ties are broken by database order, modelled here
as first in the list. -/
def pickEarliest : List WaitlistEntry → Option WaitlistEntry
  | [] => none
  | w :: ws =>
    match pickEarliest ws with
    | none => some w
    | some a => if a.create_date < w.create_date then some a else some w

/-- `auto_assign_from_waitlist` (booking.py lines 556-688): computes the
±2-day window around the cancelled booking's start date, searches waiting
entries for the same facility oldest-first, and writes status notified
with `notification_sent = True` on the first match.  Mail sending is
logged and swallowed and does not change the waitlist. -/
def auto_assign_from_waitlist (wl : List WaitlistEntry) (b : Booking) :
    List WaitlistEntry :=
  let booking_date := dateOf b.start_datetime
  let date_min := booking_date - 2
  let date_max := booking_date + 2
  match pickEarliest (wl.filter (waitlistMatch b.facility_id date_min date_max)) with
  | none => wl
  | some w =>
    wl.map (fun x =>
      if x.id == w.id then
        { x with status := WaitlistStatus.notified, notification_sent := true }
      else x)

/-- Date stepping of the recurrence loop (booking.py lines 734-747):
daily and weekly are fixed timedelta shifts; monthly is
`relativedelta(months=1)`, modelled by the abstract `monthStep`. -/
def advanceDT (monthStep : Int → Int) : RecurrenceType → Int → Int
  | .daily, t => t + 1440
  | .weekly, t => t + 7 * 1440
  | .monthly, t => monthStep t

/-- The child `booking_vals` dictionary (booking.py lines 762-774): same
facility, customer and equipment, shifted times, status draft,
non-recurring, linked to the parent; the untouched recurrence fields take
their field defaults (`recurrence_count` defaults to 1).  `id`, `duration`
and `total_cost` are overwritten by `create_booking`. -/
def childVals (parent : Booking) (cs ce : Int) : Booking :=
  { id := 0
    facility_id := parent.facility_id
    customer_id := parent.customer_id
    start_datetime := cs
    end_datetime := ce
    duration := 0
    total_cost := 0
    status := BookingStatus.draft
    equipment_ids := parent.equipment_ids
    is_recurring := false
    recurrence_type := none
    recurrence_count := 1
    recurrence_end_date := none
    parent_booking_id := some parent.id }

/-- The slot-availability search inside the recurrence loop (booking.py
lines 778-783): any draft or confirmed booking of the facility overlapping
the candidate window (the search does not exclude any id). -/
def recurrenceOverlapExists (st : List Booking) (fid : Nat) (cs ce : Int) : Bool :=
  st.any (fun o =>
    o.facility_id == fid && isActiveStatus o.status &&
    decide (o.start_datetime < ce) && decide (o.end_datetime > cs))

/-- The `while True` loop of `generate_recurring_bookings` (booking.py
lines 733-816), with explicit fuel: advance the window, bump the
occurrence counter, stop when the counter reaches a nonzero
`recurrence_count` or the next date passes `recurrence_end_date`;
otherwise skip the occurrence (counting a failure) when the slot overlaps
an existing booking or its creation raises, else create the child booking.
Returns the booking table, the created children in order, and the number
of failed occurrences.  Fuel exhaustion is an error, so an `.ok` result is
a genuine loop exit. -/
def genLoop (env : Env) (b : Booking) (rt : RecurrenceType) :
    Nat → Int → Int → Int → List Booking → List Booking → Nat →
    Except String (List Booking × List Booking × Nat)
  | 0, _, _, _, _, _, _ => .error "recurrence loop fuel exhausted"
  | fuel + 1, cs0, ce0, occ0, st, created, failed =>
    let cs := advanceDT env.monthStep rt cs0
    let ce := advanceDT env.monthStep rt ce0
    let occ := occ0 + 1
    if b.recurrence_count ≠ 0 ∧ b.recurrence_count ≤ occ then
      .ok (st, created, failed)
    else if (match b.recurrence_end_date with
             | some ed => decide (ed < dateOf cs)
             | none => false) then
      .ok (st, created, failed)
    else if recurrenceOverlapExists st b.facility_id cs ce then
      genLoop env b rt fuel cs ce occ st created (failed + 1)
    else
      match create_booking env st (childVals b cs ce) with
      | .error _ => genLoop env b rt fuel cs ce occ st created (failed + 1)
      | .ok (st2, c) => genLoop env b rt fuel cs ce occ st2 (created ++ [c]) failed

/-- `generate_recurring_bookings` (booking.py lines 690-845): validates
the recurrence settings, runs the loop, and raises only when no occurrence
could be created although some were attempted.  Returns the new booking
table and the created children. -/
def generate_recurring_bookings (env : Env) (fuel : Nat) (st : List Booking)
    (b : Booking) : Except String (List Booking × List Booking) :=
  if !b.is_recurring then
    .error "is_recurring is not enabled"
  else
    match b.recurrence_type with
    | none => .error "recurrence_type must be set"
    | some rt =>
      if b.recurrence_count = 0 ∧ b.recurrence_end_date = none then
        .error "either recurrence_count or recurrence_end_date must be specified"
      else
        match genLoop env b rt fuel b.start_datetime b.end_datetime 0 st [] 0 with
        | .error m => .error m
        | .ok (st2, created, failed) =>
          if created = [] ∧ failed ≠ 0 then
            .error "Failed to create any recurring bookings"
          else .ok (st2, created)

/-- Whole-system state: the booking table and the equipment table. -/
structure SysState where
  bookings : List Booking
  equips : List Equipment
deriving Repr

/-- One transition of the module: record creation, a client write,
one of the four workflow actions on a record of the table, standalone
equipment checkout or return, or record deletion.  Every constructor that
can change booking rows goes through the constraint-checked operations
above. -/
inductive Step (env : Env) : SysState → SysState → Prop
  | create (s : SysState) (vals : Booking) (st2 : List Booking) (b : Booking) :
      create_booking env s.bookings vals = .ok (st2, b) →
      Step env s ⟨st2, s.equips⟩
  | update (s : SysState) (b2 : Booking) (st2 : List Booking) :
      write_booking env s.bookings b2 = .ok st2 →
      Step env s ⟨st2, s.equips⟩
  | confirm (s : SysState) (b b2 : Booking) (es2 : List Equipment) :
      b ∈ s.bookings →
      action_confirm s.bookings s.equips b = .ok (b2, es2) →
      Step env s ⟨s.bookings.map (fun o => if o.id == b.id then b2 else o), es2⟩
  | complete (s : SysState) (b b2 : Booking) (es2 : List Equipment) :
      b ∈ s.bookings →
      action_complete s.bookings s.equips b = .ok (b2, es2) →
      Step env s ⟨s.bookings.map (fun o => if o.id == b.id then b2 else o), es2⟩
  | cancel (s : SysState) (now : Int) (b b2 : Booking) (es2 : List Equipment)
      (pct amt : ℚ) :
      b ∈ s.bookings →
      action_cancel now s.bookings s.equips b = .ok (b2, es2, pct, amt) →
      Step env s ⟨s.bookings.map (fun o => if o.id == b.id then b2 else o), es2⟩
  | reset (s : SysState) (b b2 : Booking) :
      b ∈ s.bookings →
      action_reset_to_draft s.bookings b = .ok b2 →
      Step env s ⟨s.bookings.map (fun o => if o.id == b.id then b2 else o), s.equips⟩
  | equipCheckout (s : SysState) (i : Nat) (q : Int) (e e2 : Equipment) :
      getEquip s.equips i = some e →
      checkout_equipment e q = .ok e2 →
      Step env s ⟨s.bookings, s.equips.map (fun x => if x.id == i then e2 else x)⟩
  | equipReturn (s : SysState) (i : Nat) (q : Int) (e e2 : Equipment) :
      getEquip s.equips i = some e →
      return_equipment e q = .ok e2 →
      Step env s ⟨s.bookings, s.equips.map (fun x => if x.id == i then e2 else x)⟩
  | unlink (s : SysState) (i : Nat) :
      Step env s ⟨s.bookings.filter (fun o => o.id != i), s.equips⟩

/-- States reachable from an empty booking table (any initial equipment
table) by module transitions. -/
def ReachableState (env : Env) (es0 : List Equipment) (s : SysState) : Prop :=
  Relation.ReflTransGen (Step env) ⟨[], es0⟩ s

/-- A pair of rows violating the no-overlap invariant: distinct ids, same
facility, both draft or confirmed, overlapping half-open intervals. -/
def pairViolation (a b : Booking) : Bool :=
  a.id != b.id && a.facility_id == b.facility_id &&
  isActiveStatus a.status && isActiveStatus b.status &&
  decide (a.start_datetime < b.end_datetime) &&
  decide (a.end_datetime > b.start_datetime)

/-- The no-overlap invariant of a booking table. -/
def noOverlapChk (st : List Booking) : Bool :=
  !(st.any (fun a => st.any (fun b => pairViolation a b)))

/-! ### Concrete fixtures (mirroring the repository's test data) -/

/-- Test fixture: tennis court, rate 25, hours 8:00-20:00. -/
def exFacility : Facility :=
  { id := 1, hourly_rate := 25, operating_hours_start := 8, operating_hours_end := 20 }

/-- Test fixture: racket, rate 5, 10 of 10 available. -/
def exEquipRacket : Equipment :=
  { id := 1, rental_rate := 5, quantity_available := 10, total_quantity := 10 }

/-- Test fixture: balls, rate 2, 20 of 20 available. -/
def exEquipBalls : Equipment :=
  { id := 2, rental_rate := 2, quantity_available := 20, total_quantity := 20 }

/-- Test fixture: active paid membership of customer 7 with a 20% discount
covering days 0 to 100000. -/
def exMember20 : Membership where
  member_id := 7
  status := .active
  payment_status := .paid
  start_date := 0
  end_date := 100000
  discount_percentage := 20

/-- Environment with the fixture facility and equipment and the given
membership table. -/
def mkExEnv (ms : List Membership) : Env where
  fac := fun _ => exFacility
  equips := [exEquipRacket, exEquipBalls]
  membs := ms
  monthStep := fun t => t

/-- Fixture booking: facility 1, customer 7, day 10 from 10:00 to 12:00
(minutes 15000 to 15120), both equipment records attached, draft. -/
def exBooking : Booking where
  id := 5
  facility_id := 1
  customer_id := 7
  start_datetime := 15000
  end_datetime := 15120
  duration := 2
  total_cost := 0
  status := .draft
  equipment_ids := [1, 2]
  is_recurring := false
  recurrence_type := none
  recurrence_count := 1
  recurrence_end_date := none
  parent_booking_id := none

/-- Confirmed fixture booking with total cost 64 and no equipment. -/
def exBookingConfirmed : Booking :=
  { exBooking with
      status := .confirmed
      total_cost := 64
      equipment_ids := ([] : List Nat) }

/-- Confirmed recurring fixture: daily with recurrence_count 3. -/
def exParent : Booking :=
  { exBooking with
      status := .confirmed
      is_recurring := true
      recurrence_type := some .daily
      recurrence_count := 3 }

/-- Multi-day fixture booking: day 0 at 10:00 to day 1 at 12:00. -/
def exBookingOvernight : Booking :=
  { exBooking with start_datetime := 600, end_datetime := 2160 }

/-! ### Claim C9: equipment quantity invariant -/

/-- Claim C9: for every equipment record, `checkout_equipment q` fails
with the record unchanged whenever `q` exceeds `quantity_available`,
`return_equipment q` fails whenever `quantity_available + q` would exceed
`total_quantity`, and (for nonnegative `q`, the only quantities the module
passes) both operations preserve
`0 ≤ quantity_available ≤ total_quantity`.  Failure is modelled as an
`.error` result, which leaves the record unchanged by rollback. -/
theorem C9_equipment_quantity_invariant (e : Equipment) (q : Int) (hq : 0 ≤ q) :
    (e.quantity_available < q → (checkout_equipment e q).isOk = false) ∧
    (e.total_quantity < e.quantity_available + q →
      (return_equipment e q).isOk = false) ∧
    (∀ e2, checkout_equipment e q = .ok e2 →
      0 ≤ e.quantity_available → e.quantity_available ≤ e.total_quantity →
      0 ≤ e2.quantity_available ∧ e2.quantity_available ≤ e2.total_quantity) ∧
    (∀ e2, return_equipment e q = .ok e2 →
      0 ≤ e.quantity_available → e.quantity_available ≤ e.total_quantity →
      0 ≤ e2.quantity_available ∧ e2.quantity_available ≤ e2.total_quantity) := by
  refine ⟨?_, ?_, ?_, ?_⟩
  · intro hlt
    have hc : check_availability e q = false := by
      simp only [check_availability, decide_eq_false_iff_not, ge_iff_le, not_le]
      omega
    simp [checkout_equipment, hc, Except.isOk, Except.toBool]
  · intro hlt
    have hc : decide (e.quantity_available + q > e.total_quantity) = true := by
      simp only [decide_eq_true_eq, gt_iff_lt]
      omega
    simp [return_equipment, hc, Except.isOk, Except.toBool]
  · intro e2 hok h0 hle
    by_cases hc : check_availability e q = true
    · have hq2 : q ≤ e.quantity_available := by
        simpa only [check_availability, decide_eq_true_eq, ge_iff_le] using hc
      simp only [checkout_equipment, hc, Bool.not_true, Bool.false_eq_true,
        if_false, Except.ok.injEq] at hok
      subst hok
      refine ⟨?_, ?_⟩ <;> simp only [] <;> omega
    · rw [Bool.not_eq_true] at hc
      simp [checkout_equipment, hc] at hok
  · intro e2 hok h0 hle
    by_cases hc : e.quantity_available + q ≤ e.total_quantity
    · have hd : decide (e.quantity_available + q > e.total_quantity) = false := by
        simp only [decide_eq_false_iff_not, gt_iff_lt, not_lt]
        exact hc
      simp only [return_equipment, hd, Bool.false_eq_true, if_false,
        Except.ok.injEq] at hok
      subst hok
      refine ⟨?_, ?_⟩ <;> simp only [] <;> omega
    · have hd : decide (e.quantity_available + q > e.total_quantity) = true := by
        simp only [decide_eq_true_eq, gt_iff_lt]
        omega
      simp [return_equipment, hd] at hok

/-- Witness for C9 at a concrete equipment record and quantity 1. -/
theorem C9_witness :
    (0 : Int) ≤ 1 ∧
    (checkout_equipment ⟨1, 5, 0, 4⟩ 1).isOk = false ∧
    (return_equipment ⟨1, 5, 4, 4⟩ 1).isOk = false :=
  ⟨by decide,
   (C9_equipment_quantity_invariant ⟨1, 5, 0, 4⟩ 1 (by decide)).1 (by decide),
   (C9_equipment_quantity_invariant ⟨1, 5, 4, 4⟩ 1 (by decide)).2.1 (by decide)⟩

/-! ### Shared helper lemmas -/

/-- The availability constraint ignores the status of the record being
checked (it filters only the other records' statuses), so rewriting the
status of the checked record does not change the check. -/
theorem check_facility_availability_status (st : List Booking) (b : Booking)
    (s : BookingStatus) :
    check_facility_availability st { b with status := s } =
      check_facility_availability st b := rfl

/-! ### Claim C7: booking status state machine -/

/-- Claim C7: booking transitions follow draft to confirmed to completed,
with draft or confirmed to cancelled: `action_confirm` fails unless the
status is draft and on success yields status confirmed; `action_complete`
fails unless the status is confirmed and on success yields completed;
`action_cancel` fails when the status is completed and on success yields
cancelled.  A failing action is an `.error` result, so the booking is
unchanged by transaction rollback. -/
theorem C7_booking_state_machine (now : Int) (st : List Booking)
    (es : List Equipment) (b : Booking) :
    (b.status ≠ BookingStatus.draft → (action_confirm st es b).isOk = false) ∧
    (∀ b2 es2, action_confirm st es b = .ok (b2, es2) →
      b.status = BookingStatus.draft ∧ b2.status = BookingStatus.confirmed) ∧
    (b.status ≠ BookingStatus.confirmed →
      (action_complete st es b).isOk = false) ∧
    (∀ b2 es2, action_complete st es b = .ok (b2, es2) →
      b.status = BookingStatus.confirmed ∧
        b2.status = BookingStatus.completed) ∧
    (b.status = BookingStatus.completed →
      (action_cancel now st es b).isOk = false) ∧
    (∀ r, action_cancel now st es b = .ok r →
      b.status ≠ BookingStatus.completed ∧
        r.1.status = BookingStatus.cancelled) := by
  refine ⟨?_, ?_, ?_, ?_, ?_, ?_⟩
  · intro h
    simp [action_confirm, h, Except.isOk, Except.toBool]
  · intro b2 es2 hok
    simp only [action_confirm] at hok
    split at hok
    · exact absurd hok (by simp)
    · next h =>
      rw [not_not] at h
      split at hok
      · exact absurd hok (by simp)
      · split at hok
        · exact absurd hok (by simp)
        · next es3 heq =>
          refine ⟨h, ?_⟩
          rw [Except.ok.injEq, Prod.mk.injEq] at hok
          rw [← hok.1]
  · intro h
    simp [action_complete, h, Except.isOk, Except.toBool]
  · intro b2 es2 hok
    simp only [action_complete] at hok
    split at hok
    · exact absurd hok (by simp)
    · next h =>
      rw [not_not] at h
      split at hok
      · exact absurd hok (by simp)
      · split at hok
        · rw [Except.ok.injEq, Prod.mk.injEq] at hok
          exact ⟨h, by rw [← hok.1]⟩
        · exact absurd hok (by simp)
  · intro h
    simp [action_cancel, h, Except.isOk, Except.toBool]
  · intro r hok
    simp only [action_cancel] at hok
    split at hok
    · exact absurd hok (by simp)
    · next h =>
      refine ⟨h, ?_⟩
      split at hok
      · exact absurd hok (by simp)
      · split at hok
        · rw [Except.ok.injEq] at hok
          rw [← hok]
        · exact absurd hok (by simp)

/-- Witness for C7 at concrete bookings for each guarded transition. -/
theorem C7_witness :
    exBookingConfirmed.status ≠ BookingStatus.draft ∧
    (action_confirm [] [] exBookingConfirmed).isOk = false ∧
    exBooking.status ≠ BookingStatus.confirmed ∧
    (action_complete [] [] exBooking).isOk = false ∧
    ({ exBooking with status := BookingStatus.completed } : Booking).status =
      BookingStatus.completed ∧
    (action_cancel 0 [] []
      { exBooking with status := BookingStatus.completed }).isOk = false :=
  ⟨by decide,
   (C7_booking_state_machine 0 [] [] exBookingConfirmed).1 (by decide),
   by decide,
   (C7_booking_state_machine 0 [] [] exBooking).2.2.1 (by decide),
   by decide,
   (C7_booking_state_machine 0 [] []
     { exBooking with status := BookingStatus.completed }).2.2.2.2.1 (by decide)⟩

/-! ### Claim C8: operating-hours validation -/

/-- Claim C8 counterexample: a multi-day booking (day 0 at 10:00 to day 1
at 12:00, facility hours 8:00-20:00) whose first-day coverage runs past
closing time.  The per-day property of the claim flags it, but
`validate_operating_hours` raises no error, refuting the claim that a
violation on any day of the span raises a validation error. -/
theorem C8_counterexample :
    specPerDayViolation exFacility exBookingOvernight = true ∧
    validate_operating_hours exFacility exBookingOvernight = true := by
  constructor
  · norm_num [specPerDayViolation, exFacility, exBookingOvernight, exBooking,
      hourOfDay, dateOf, List.range_succ]
  · norm_num [validate_operating_hours, exFacility, exBookingOvernight, exBooking,
      hourOfDay, dateOf]

/-- Claim C8 (amended): the validation compares only the start
time-of-day with the opening hour and the end time-of-day with the
closing hour, identically for single-day and multi-day bookings; for
single-day bookings this coincides with the claimed per-day check, but
the interior coverage of multi-day spans is not checked. -/
theorem C8_operating_hours_endpoints_only (f : Facility) (b : Booking) :
    (validate_operating_hours f b = true ↔
      (f.operating_hours_start ≤ hourOfDay b.start_datetime ∧
        hourOfDay b.end_datetime ≤ f.operating_hours_end)) ∧
    (dateOf b.start_datetime = dateOf b.end_datetime →
      (validate_operating_hours f b = false ↔
        specPerDayViolation f b = true)) := by
  constructor
  · simp [validate_operating_hours, ite_self, not_lt]
  · intro h
    have h2 : dateOf b.end_datetime = dateOf b.start_datetime := h.symm
    simp only [specPerDayViolation, h2, sub_self, Int.toNat_zero, zero_add,
      List.range_succ, List.range_zero, List.nil_append, List.any_cons,
      List.any_nil, Nat.cast_zero, add_zero, if_true, eq_self_iff_true,
      validate_operating_hours, ite_self, Bool.or_false]
    cases hd1 : decide (hourOfDay b.start_datetime < f.operating_hours_start) <;>
      cases hd2 : decide (hourOfDay b.end_datetime > f.operating_hours_end) <;>
      simp_all

/-- Witness for C8 at a concrete single-day booking. -/
theorem C8_witness :
    dateOf exBooking.start_datetime = dateOf exBooking.end_datetime ∧
    (validate_operating_hours exFacility exBooking = false ↔
      specPerDayViolation exFacility exBooking = true) :=
  ⟨by decide,
   (C8_operating_hours_endpoints_only exFacility exBooking).2 (by decide)⟩

/-! ### Claim C2: total cost computation -/

/-- Claim C2 counterexample: for duration 2 hours, facility rate 25 and
equipment rates 5 and 2 — the configuration named by the claim — a 20%
membership discount yields 64 x 0.8 = 51.20, not the claimed 48.00.
(48.00 is the cost of the repository test's single-equipment scenario:
(50 + 10) x 0.8.) -/
theorem C2_counterexample :
    compute_total_cost (mkExEnv [exMember20]) exBooking = 256/5 ∧
    (256/5 : ℚ) ≠ 48 := by
  constructor
  · have hr1 : rateOf (mkExEnv [exMember20]).equips 1 = 5 := rfl
    have hr2 : rateOf (mkExEnv [exMember20]).equips 2 = 2 := rfl
    have hd : discountFor (mkExEnv [exMember20]) exBooking = 20 := rfl
    have hf : (mkExEnv [exMember20]).fac exBooking.facility_id = exFacility := rfl
    have hdur : exBooking.duration = 2 := rfl
    have hids : exBooking.equipment_ids = [1, 2] := rfl
    norm_num [compute_total_cost, hd, hf, hdur, hids, hr1, hr2, exFacility,
      round2]
  · norm_num

/-- Claim C2 (amended): total_cost is facility hourly_rate x duration plus
the sum over attached equipment of rental_rate x duration, reduced once
multiplicatively by the active paid membership's discount percentage,
clamped to be nonnegative and rounded to 2 decimals (under the module's
constraints that rates, duration and discounts are nonnegative); for
duration 2 hours, rate 25 and equipment rates 5 and 2 the cost is 64.00
without a membership and 51.20 (not 48.00) with a 20% discount. -/
theorem C2_total_cost_formula :
    (∀ (env : Env) (b : Booking),
      0 ≤ (env.fac b.facility_id).hourly_rate →
      0 ≤ b.duration →
      (∀ e ∈ env.equips, 0 ≤ e.rental_rate) →
      (∀ m ∈ env.membs, 0 ≤ m.discount_percentage) →
      compute_total_cost env b =
        round2 (max 0
          (((env.fac b.facility_id).hourly_rate * b.duration +
            (b.equipment_ids.map
              (fun i => rateOf env.equips i * b.duration)).sum) *
            (1 - discountFor env b / 100)))) ∧
    compute_total_cost (mkExEnv []) exBooking = 64 ∧
    compute_total_cost (mkExEnv [exMember20]) exBooking = 256/5 := by
  refine ⟨?_, ?_, ?_⟩
  · intro env b h1 h2 h3 h4
    have hrate : ∀ i, 0 ≤ rateOf env.equips i := by
      intro i
      unfold rateOf getEquip
      cases hf : env.equips.find? (fun e => e.id == i) with
      | none => simp
      | some e =>
        have he : e ∈ env.equips := List.mem_of_find?_eq_some hf
        simp [hf]
        exact h3 e he
    have hbase : 0 ≤ (env.fac b.facility_id).hourly_rate * b.duration +
        (b.equipment_ids.map (fun i => rateOf env.equips i * b.duration)).sum := by
      have hsum : 0 ≤
          (b.equipment_ids.map (fun i => rateOf env.equips i * b.duration)).sum := by
        apply List.sum_nonneg
        intro x hx
        rcases List.mem_map.mp hx with ⟨i, hi, rfl⟩
        exact mul_nonneg (hrate i) h2
      have := mul_nonneg h1 h2
      linarith
    have hdisc : 0 ≤ discountFor env b := by
      unfold discountFor
      cases hf : findActiveMembership env.membs b.customer_id
          (dateOf b.start_datetime) with
      | none => simp
      | some m =>
        have hm : m ∈ env.membs := List.mem_of_find?_eq_some hf
        simp
        exact h4 m hm
    simp only [compute_total_cost]
    congr 1
    congr 1
    split_ifs with hif
    · ring
    · rcases lt_or_le 0 (discountFor env b) with hd | hd
      · have hb0 : ¬ (0 < (env.fac b.facility_id).hourly_rate * b.duration +
            (b.equipment_ids.map
              (fun i => rateOf env.equips i * b.duration)).sum) :=
          fun hb => hif ⟨hd, hb⟩
        have hz : (env.fac b.facility_id).hourly_rate * b.duration +
            (b.equipment_ids.map
              (fun i => rateOf env.equips i * b.duration)).sum = 0 :=
          le_antisymm (not_lt.mp hb0) hbase
        rw [hz]
        ring
      · have hz : discountFor env b = 0 := le_antisymm hd hdisc
        rw [hz]
        ring
  · have hr1 : rateOf (mkExEnv []).equips 1 = 5 := rfl
    have hr2 : rateOf (mkExEnv []).equips 2 = 2 := rfl
    have hd : discountFor (mkExEnv []) exBooking = 0 := rfl
    have hf : (mkExEnv []).fac exBooking.facility_id = exFacility := rfl
    have hdur : exBooking.duration = 2 := rfl
    have hids : exBooking.equipment_ids = [1, 2] := rfl
    norm_num [compute_total_cost, hd, hf, hdur, hids, hr1, hr2, exFacility,
      round2]
  · have hr1 : rateOf (mkExEnv [exMember20]).equips 1 = 5 := rfl
    have hr2 : rateOf (mkExEnv [exMember20]).equips 2 = 2 := rfl
    have hd : discountFor (mkExEnv [exMember20]) exBooking = 20 := rfl
    have hf : (mkExEnv [exMember20]).fac exBooking.facility_id = exFacility := rfl
    have hdur : exBooking.duration = 2 := rfl
    have hids : exBooking.equipment_ids = [1, 2] := rfl
    norm_num [compute_total_cost, hd, hf, hdur, hids, hr1, hr2, exFacility,
      round2]

/-- Witness for C2: the general cost formula applied at the fixture
environment and booking, with every hypothesis discharged concretely. -/
theorem C2_witness :
    (0 ≤ ((mkExEnv []).fac exBooking.facility_id).hourly_rate) ∧
    (0 ≤ exBooking.duration) ∧
    (∀ e ∈ (mkExEnv []).equips, 0 ≤ e.rental_rate) ∧
    (∀ m ∈ (mkExEnv []).membs, 0 ≤ m.discount_percentage) ∧
    compute_total_cost (mkExEnv []) exBooking =
      round2 (max 0
        ((((mkExEnv []).fac exBooking.facility_id).hourly_rate *
            exBooking.duration +
          (exBooking.equipment_ids.map
            (fun i => rateOf (mkExEnv []).equips i * exBooking.duration)).sum) *
          (1 - discountFor (mkExEnv []) exBooking / 100))) :=
  ⟨by decide, by decide, by decide, by decide,
   C2_total_cost_formula.1 (mkExEnv []) exBooking (by decide) (by decide)
     (by decide) (by decide)⟩

/-! ### Claim C3: tiered refunds on cancellation -/

/-- Claim C3: for a confirmed booking with positive total_cost cancelled
before its start, the recorded refund percentage is 100 when at least 48
hours remain until the start, 50 between 24 and 48 hours, 25 between 12
and 24 hours, and 0 below 12 hours, and the refund amount is
total_cost x percentage / 100. -/
theorem C3_refund_tiers (now : Int) (st : List Booking) (es : List Equipment)
    (b b2 : Booking) (es2 : List Equipment) (pct amt : ℚ)
    (hok : action_cancel now st es b = .ok (b2, es2, pct, amt))
    (hst : b.status = BookingStatus.confirmed)
    (hcost : 0 < b.total_cost)
    (hfut : now < b.start_datetime) :
    (48 ≤ ((b.start_datetime - now : Int) : ℚ) / 60 → pct = 100) ∧
    (24 ≤ ((b.start_datetime - now : Int) : ℚ) / 60 →
      ((b.start_datetime - now : Int) : ℚ) / 60 < 48 → pct = 50) ∧
    (12 ≤ ((b.start_datetime - now : Int) : ℚ) / 60 →
      ((b.start_datetime - now : Int) : ℚ) / 60 < 24 → pct = 25) ∧
    (((b.start_datetime - now : Int) : ℚ) / 60 < 12 → pct = 0) ∧
    amt = b.total_cost * pct / 100 := by
  simp only [action_cancel, hst, reduceCtorEq, if_false, if_true,
    eq_self_iff_true, true_and] at hok
  split at hok
  · exact absurd hok (by simp)
  · split at hok
    · rw [Except.ok.injEq, Prod.mk.injEq, Prod.mk.injEq, Prod.mk.injEq] at hok
      obtain ⟨-, -, hpct, hamt⟩ := hok
      rw [if_pos (show 0 < b.total_cost ∧ now < b.start_datetime from
        ⟨hcost, hfut⟩)] at hpct hamt
      refine ⟨?_, ?_, ?_, ?_, ?_⟩
      · intro h48
        rw [← hpct, if_pos h48]
      · intro h24 h48
        rw [← hpct, if_neg (not_le.mpr h48), if_pos h24]
      · intro h12 h24
        rw [← hpct, if_neg (not_le.mpr (lt_of_lt_of_le h24 (by norm_num))),
          if_neg (not_le.mpr h24), if_pos h12]
      · intro h12
        rw [← hpct, if_neg (not_le.mpr (lt_of_lt_of_le h12 (by norm_num))),
          if_neg (not_le.mpr (lt_of_lt_of_le h12 (by norm_num))),
          if_neg (not_le.mpr h12)]
      · rw [← hamt, ← hpct]
    · exact absurd hok (by simp)

/-- Witness for C3: cancelling the confirmed fixture booking 30 hours
before its start records a 50% refund of 32 out of 64. -/
theorem C3_witness :
    action_cancel 13200 [exBookingConfirmed] [] exBookingConfirmed =
      .ok ({ exBookingConfirmed with status := BookingStatus.cancelled },
        [], 50, 32) ∧
    (32 : ℚ) = exBookingConfirmed.total_cost * 50 / 100 := by
  have heval : action_cancel 13200 [exBookingConfirmed] [] exBookingConfirmed =
      .ok ({ exBookingConfirmed with status := BookingStatus.cancelled },
        [], 50, 32) := by
    have h1 : exBookingConfirmed.status = BookingStatus.confirmed := rfl
    have h2 : exBookingConfirmed.equipment_ids = [] := rfl
    have h3 : exBookingConfirmed.total_cost = 64 := rfl
    have h4 : exBookingConfirmed.start_datetime = 15000 := rfl
    norm_num [action_cancel, h1, h2, h3, h4, returnAll, canReturnAll,
      check_facility_availability, bne_self_eq_false]
    exact fun hcontra => absurd hcontra (by decide)
  exact ⟨heval,
    (C3_refund_tiers 13200 [exBookingConfirmed] [] exBookingConfirmed
      { exBookingConfirmed with status := BookingStatus.cancelled } [] 50 32
      heval rfl (by norm_num [exBookingConfirmed, exBooking])
      (by decide)).2.2.2.2⟩

/-! ### Claim C6: FIFO waitlist notification -/

/-- A result of `pickEarliest` is an element of the searched list. -/
theorem pickEarliest_mem {l : List WaitlistEntry} {a : WaitlistEntry}
    (h : pickEarliest l = some a) : a ∈ l := by
  induction l with
  | nil => cases h
  | cons w ws ih =>
    cases hw : pickEarliest ws with
    | none =>
      simp only [pickEarliest, hw] at h
      cases h
      exact List.mem_cons_self _ _
    | some x =>
      simp only [pickEarliest, hw] at h
      by_cases hlt : x.create_date < w.create_date
      · rw [if_pos hlt] at h
        cases h
        exact List.mem_cons_of_mem _ (ih hw)
      · rw [if_neg hlt] at h
        cases h
        exact List.mem_cons_self _ _

/-- `pickEarliest` returns the entry with the strictly smallest
`create_date` when one exists. -/
theorem pickEarliest_min {l : List WaitlistEntry} {w : WaitlistEntry}
    (hw : w ∈ l)
    (hmin : ∀ x ∈ l, x ≠ w → w.create_date < x.create_date) :
    pickEarliest l = some w := by
  induction l with
  | nil => cases hw
  | cons h t ih =>
    by_cases hhw : h = w
    · subst hhw
      cases hx : pickEarliest t with
      | none => simp only [pickEarliest, hx]
      | some a =>
        have ha : a ∈ t := pickEarliest_mem hx
        simp only [pickEarliest, hx]
        by_cases haw : a = h
        · subst haw
          rw [if_neg (lt_irrefl _)]
        · have hlt := hmin a (List.mem_cons_of_mem _ ha) haw
          rw [if_neg (not_lt.mpr (le_of_lt hlt))]
    · have hwt : w ∈ t := by
        rcases List.mem_cons.mp hw with h1 | h1
        · exact absurd h1.symm hhw
        · exact h1
      have hmt : ∀ x ∈ t, x ≠ w → w.create_date < x.create_date :=
        fun x hx => hmin x (List.mem_cons_of_mem _ hx)
      have ht := ih hwt hmt
      simp only [pickEarliest, ht]
      rw [if_pos (hmin h (List.mem_cons_self _ _) (fun e => hhw e))]

/-- Claim C6: when a booking is cancelled, among the waiting entries for
the same facility whose preferred date is unset or within 2 days of the
cancelled booking's start date, exactly the entry with the strictly
earliest create_date is set to notified with `notification_sent`, and
every other entry is unchanged (in particular, matching entries stay
waiting). -/
theorem C6_waitlist_fifo (wl : List WaitlistEntry) (b : Booking)
    (w : WaitlistEntry) (hw : w ∈ wl)
    (hmatch : waitlistMatch b.facility_id (dateOf b.start_datetime - 2)
      (dateOf b.start_datetime + 2) w = true)
    (hmin : ∀ x ∈ wl,
      waitlistMatch b.facility_id (dateOf b.start_datetime - 2)
        (dateOf b.start_datetime + 2) x = true →
      x ≠ w → w.create_date < x.create_date) :
    auto_assign_from_waitlist wl b =
      wl.map (fun x => if x.id == w.id then
        { x with status := WaitlistStatus.notified, notification_sent := true }
      else x) := by
  have hwf : w ∈ wl.filter (waitlistMatch b.facility_id
      (dateOf b.start_datetime - 2) (dateOf b.start_datetime + 2)) :=
    List.mem_filter.mpr ⟨hw, hmatch⟩
  have hpk : pickEarliest (wl.filter (waitlistMatch b.facility_id
      (dateOf b.start_datetime - 2) (dateOf b.start_datetime + 2))) =
      some w :=
    pickEarliest_min hwf (fun x hx hxw =>
      hmin x (List.mem_filter.mp hx).1 (List.mem_filter.mp hx).2 hxw)
  simp only [auto_assign_from_waitlist, hpk]

/-- Waitlist fixture: waiting entry for facility 1, no date preference,
created at time 100. -/
def exWaitLate : WaitlistEntry where
  id := 1
  customer_id := 3
  facility_id := 1
  preferred_date := none
  status := .waiting
  notification_sent := false
  create_date := 100

/-- Waitlist fixture: waiting entry for facility 1, preferred date day 10,
created at time 50 (the earliest matching entry). -/
def exWaitEarly : WaitlistEntry where
  id := 2
  customer_id := 4
  facility_id := 1
  preferred_date := some 10
  status := .waiting
  notification_sent := false
  create_date := 50

/-- Waitlist fixture: waiting entry for another facility, created first
(does not match the cancelled slot). -/
def exWaitOther : WaitlistEntry where
  id := 3
  customer_id := 5
  facility_id := 2
  preferred_date := none
  status := .waiting
  notification_sent := false
  create_date := 1

/-- Witness for C6: of three waiting entries, the earliest-created
matching one is notified; the others are unchanged. -/
theorem C6_witness :
    exWaitEarly ∈ [exWaitLate, exWaitEarly, exWaitOther] ∧
    auto_assign_from_waitlist [exWaitLate, exWaitEarly, exWaitOther]
      exBookingConfirmed =
      [exWaitLate,
       { exWaitEarly with
           status := WaitlistStatus.notified
           notification_sent := true },
       exWaitOther] := by
  refine ⟨by decide, ?_⟩
  rw [C6_waitlist_fifo _ _ exWaitEarly (by decide) (by decide) (by decide)]
  decide

/-! ### Claims C4 and C10: equipment stock effects of the workflow -/

theorem getEquip_map (es : List Equipment) (i : Nat)
    (f : Equipment → Equipment) (hf : ∀ e, (f e).id = e.id) :
    getEquip (es.map f) i = (getEquip es i).map f := by
  unfold getEquip
  rw [List.find?_map]
  have hp : ((fun e => e.id == i) ∘ f) = (fun e => e.id == i) := by
    funext e
    simp [Function.comp, hf e]
  rw [hp]

theorem getEquip_id {es : List Equipment} {i : Nat} {e : Equipment}
    (h : getEquip es i = some e) : e.id = i := by
  have := List.find?_some h
  simpa using this

theorem getEquip_mem {es : List Equipment} {i : Nat} {e : Equipment}
    (h : getEquip es i = some e) : e ∈ es :=
  List.mem_of_find?_eq_some h

/-- Decrement map used by checkoutAll. -/
def decEquip (ids : List Nat) : Equipment → Equipment := fun e =>
  if ids.contains e.id then
    { e with quantity_available := e.quantity_available - 1 }
  else e

/-- Increment map used by returnAll. -/
def incEquip (ids : List Nat) : Equipment → Equipment := fun e =>
  if ids.contains e.id then
    { e with quantity_available := e.quantity_available + 1 }
  else e

theorem decEquip_id (ids : List Nat) (e : Equipment) :
    (decEquip ids e).id = e.id := by
  unfold decEquip
  split <;> rfl

theorem incEquip_id (ids : List Nat) (e : Equipment) :
    (incEquip ids e).id = e.id := by
  unfold incEquip
  split <;> rfl

theorem checkoutAll_eq (es : List Equipment) (ids : List Nat) :
    checkoutAll es ids = if canCheckoutAll es ids then
      .ok (es.map (decEquip ids)) else .error "Equipment checkout failed" := rfl

theorem returnAll_eq (es : List Equipment) (ids : List Nat) :
    returnAll es ids = if canReturnAll es ids then
      .ok (es.map (incEquip ids)) else .error "Equipment return failed" := rfl

theorem checkoutAll_ok {es : List Equipment} {ids : List Nat}
    {es1 : List Equipment} (h : checkoutAll es ids = .ok es1) :
    canCheckoutAll es ids = true ∧ es1 = es.map (decEquip ids) := by
  rw [checkoutAll_eq] at h
  split at h
  · next hc =>
    rw [Except.ok.injEq] at h
    exact ⟨hc, h.symm⟩
  · exact absurd h (by simp)

theorem canCheckoutAll_spec {es : List Equipment} {ids : List Nat}
    (h : canCheckoutAll es ids = true) {i : Nat} (hi : i ∈ ids) :
    ∃ e, getEquip es i = some e ∧ 1 ≤ e.quantity_available := by
  rw [canCheckoutAll, List.all_eq_true] at h
  have hx := h i hi
  cases hg : getEquip es i with
  | none => rw [hg] at hx; cases hx
  | some e =>
    rw [hg] at hx
    simp only [check_availability, ge_iff_le, decide_eq_true_eq] at hx
    exact ⟨e, rfl, hx⟩

theorem canCheckoutAll_fails {es : List Equipment} {ids : List Nat}
    {i : Nat} {e : Equipment} (hi : i ∈ ids) (hg : getEquip es i = some e)
    (h0 : e.quantity_available ≤ 0) : canCheckoutAll es ids = false := by
  rw [Bool.eq_false_iff]
  intro hcan
  rcases canCheckoutAll_spec hcan hi with ⟨e2, hg2, hge⟩
  rw [hg] at hg2
  cases hg2
  omega

/-- After a successful checkout of distinct equipment records, returning
the same records succeeds and restores the table exactly. -/
theorem checkout_return_roundtrip {es : List Equipment} {ids : List Nat}
    {es1 : List Equipment}
    (hwf : ∀ e ∈ es, e.quantity_available ≤ e.total_quantity)
    (hck : checkoutAll es ids = .ok es1) :
    returnAll es1 ids = .ok es := by
  rcases checkoutAll_ok hck with ⟨hcan, rfl⟩
  have hret : canReturnAll (es.map (decEquip ids)) ids = true := by
    rw [canReturnAll, List.all_eq_true]
    intro i hi
    rcases canCheckoutAll_spec hcan hi with ⟨e, hg, hge⟩
    have hmap : getEquip (es.map (decEquip ids)) i =
        some (decEquip ids e) := by
      rw [getEquip_map es i _ (decEquip_id ids), hg]
      rfl
    rw [hmap]
    have hcont : ids.contains e.id = true := by
      rw [getEquip_id hg]
      exact List.elem_eq_true_of_mem hi
    have hle := hwf e (getEquip_mem hg)
    simp only [decEquip, hcont, if_true, decide_eq_true_eq]
    omega
  rw [returnAll_eq, if_pos hret, List.map_map]
  congr 1
  have hcomp : ∀ e, (incEquip ids ∘ decEquip ids) e = e := by
    intro e
    by_cases hc : ids.contains e.id = true
    · simp only [Function.comp, decEquip, incEquip, hc, eq_self_iff_true,
        if_true]
      have h2 : e.quantity_available - 1 + 1 = e.quantity_available := by
        omega
      rw [h2]
    · rw [Bool.not_eq_true] at hc
      simp only [Function.comp, decEquip, incEquip, hc, Bool.false_eq_true,
        if_false]
  calc es.map (incEquip ids ∘ decEquip ids)
      = es.map id := by
        apply List.map_congr_left
        intro e _
        rw [hcomp e, id_eq]
    _ = es := List.map_id es

theorem action_confirm_ok {st : List Booking} {es : List Equipment}
    {b b1 : Booking} {es1 : List Equipment}
    (h : action_confirm st es b = .ok (b1, es1)) :
    b.status = BookingStatus.draft ∧
    check_facility_availability st b = true ∧
    canCheckoutAll es b.equipment_ids = true ∧
    b1 = { b with status := BookingStatus.confirmed } ∧
    es1 = es.map (decEquip b.equipment_ids) := by
  simp only [action_confirm] at h
  split at h
  · exact absurd h (by simp)
  · next hdraft =>
    rw [not_not] at hdraft
    split at h
    · exact absurd h (by simp)
    · next hav =>
      simp only [Bool.not_eq_true, Bool.not_eq_false'] at hav
      split at h
      · exact absurd h (by simp)
      · next es2 hck =>
        rcases checkoutAll_ok hck with ⟨hcan, rfl⟩
        rw [Except.ok.injEq, Prod.mk.injEq] at h
        exact ⟨hdraft, hav, hcan, h.1.symm, h.2.symm⟩

/-- Equipment fixture with zero availability. -/
def exEquipZero : Equipment :=
  { id := 1, rental_rate := 5, quantity_available := 0, total_quantity := 10 }

/-- Cancelled fixture booking occupying the same slot as an active one. -/
def exCancelledClash : Booking := { exBooking with id := 11, status := .cancelled }

/-- Confirmed fixture booking occupying the slot of `exCancelledClash`. -/
def exActiveClash : Booking := { exBooking with id := 12, status := .confirmed }

/-- Claim C4: confirming a draft booking fails (leaving it draft, by
rollback) when any attached equipment has `quantity_available = 0`; a
successful confirm decrements each attached equipment's availability by 1,
and a subsequent complete or cancel increments each by 1, restoring
exactly the availability each equipment had before the confirm (under the
module's constraint `quantity_available ≤ total_quantity`). -/
theorem C4_confirm_equipment_stock (st : List Booking) (es : List Equipment) (b : Booking) :
    (∀ i e, i ∈ b.equipment_ids → getEquip es i = some e →
      e.quantity_available = 0 → (action_confirm st es b).isOk = false) ∧
    (∀ b1 es1, action_confirm st es b = .ok (b1, es1) →
      (∀ e ∈ es, e.quantity_available ≤ e.total_quantity) →
      action_complete st es1 b1 =
        .ok ({ b1 with status := BookingStatus.completed }, es) ∧
      (∀ now, ∃ pct amt, action_cancel now st es1 b1 =
        .ok ({ b1 with status := BookingStatus.cancelled }, es, pct, amt))) := by
  constructor
  · intro i e hi hg h0
    have hfail : canCheckoutAll es b.equipment_ids = false :=
      canCheckoutAll_fails hi hg (le_of_eq h0)
    simp only [action_confirm]
    split
    · simp [Except.isOk, Except.toBool]
    · split
      · simp [Except.isOk, Except.toBool]
      · rw [checkoutAll_eq, if_neg (by rw [hfail]; exact fun hc => by cases hc)]
        simp [Except.isOk, Except.toBool]
  · intro b1 es1 hok hwf
    rcases action_confirm_ok hok with ⟨hdraft, hav, hcan, rfl, rfl⟩
    have hret : returnAll (es.map (decEquip b.equipment_ids))
        b.equipment_ids = .ok es :=
      checkout_return_roundtrip hwf (by rw [checkoutAll_eq, if_pos hcan])
    have hcomp : check_facility_availability st
        { b with status := BookingStatus.completed } = true := by
      rw [check_facility_availability_status]
      exact hav
    have hcanc : check_facility_availability st
        { b with status := BookingStatus.cancelled } = true := by
      rw [check_facility_availability_status]
      exact hav
    constructor
    · simp only [action_complete, ne_eq, eq_self_iff_true, not_true,
        if_false, hret, hcomp, if_true]
    · intro now
      simp only [action_cancel, reduceCtorEq, if_false, hret,
        eq_self_iff_true, if_true, hcanc]
      exact ⟨_, _, rfl⟩

/-- Witness for C4: confirming with a zero-stock equipment fails; a full
confirm-then-complete cycle restores the fixture stock exactly. -/
theorem C4_witness :
    (1 : Nat) ∈ exBooking.equipment_ids ∧
    getEquip [exEquipZero, exEquipBalls] 1 = some exEquipZero ∧
    exEquipZero.quantity_available = 0 ∧
    (action_confirm [exBooking] [exEquipZero, exEquipBalls] exBooking).isOk =
      false ∧
    action_confirm [exBooking] [exEquipRacket, exEquipBalls] exBooking =
      .ok ({ exBooking with status := BookingStatus.confirmed },
        [{ exEquipRacket with quantity_available := 9 },
         { exEquipBalls with quantity_available := 19 }]) ∧
    action_complete [exBooking]
      [{ exEquipRacket with quantity_available := 9 },
       { exEquipBalls with quantity_available := 19 }]
      { exBooking with status := BookingStatus.confirmed } =
      .ok ({ exBooking with status := BookingStatus.completed },
        [exEquipRacket, exEquipBalls]) := by
  have heval : action_confirm [exBooking] [exEquipRacket, exEquipBalls]
      exBooking =
      .ok ({ exBooking with status := BookingStatus.confirmed },
        [{ exEquipRacket with quantity_available := 9 },
         { exEquipBalls with quantity_available := 19 }]) := by rfl
  refine ⟨by decide, by decide, by decide, ?_, heval, ?_⟩
  · exact (C4_confirm_equipment_stock [exBooking] [exEquipZero, exEquipBalls]
      exBooking).1 1 exEquipZero (by decide) (by decide) (by decide)
  · exact ((C4_confirm_equipment_stock [exBooking]
      [exEquipRacket, exEquipBalls] exBooking).2 _ _ heval (by decide)).1

/-- Composing the checkout decrement twice subtracts 2 from each attached
equipment record. -/
theorem decEquip_twice (ids : List Nat) (es : List Equipment) :
    (es.map (decEquip ids)).map (decEquip ids) =
      es.map (fun e => if ids.contains e.id then
        { e with quantity_available := e.quantity_available - 2 } else e) := by
  rw [List.map_map]
  apply List.map_congr_left
  intro e _
  by_cases hc : ids.contains e.id = true
  · simp only [Function.comp, decEquip, hc, eq_self_iff_true, if_true]
    congr 1
    omega
  · rw [Bool.not_eq_true] at hc
    simp only [Function.comp, decEquip, hc, Bool.false_eq_true, if_false]

/-- Claim C10 (amended): `action_reset_to_draft` raises for completed
bookings; for a non-completed booking it resets the status to draft
provided the re-fired availability constraint passes (it can fail for a
cancelled booking whose slot was re-booked); it never touches equipment,
so confirming, resetting and confirming again decrements each attached
equipment's availability twice in total. -/
theorem C10_reset_to_draft (st : List Booking) (es : List Equipment)
    (b : Booking) :
    (b.status = BookingStatus.completed →
      (action_reset_to_draft st b).isOk = false) ∧
    (b.status ≠ BookingStatus.completed →
      check_facility_availability st b = true →
      action_reset_to_draft st b =
        .ok { b with status := BookingStatus.draft }) ∧
    (∀ b1 es1 b2 b3 es2,
      action_confirm st es b = .ok (b1, es1) →
      action_reset_to_draft st b1 = .ok b2 →
      action_confirm st es1 b2 = .ok (b3, es2) →
      es2 = es.map (fun e => if b.equipment_ids.contains e.id then
        { e with quantity_available := e.quantity_available - 2 } else e)) := by
  refine ⟨?_, ?_, ?_⟩
  · intro h
    simp [action_reset_to_draft, h, Except.isOk, Except.toBool]
  · intro h hav
    have hav2 : check_facility_availability st
        { b with status := BookingStatus.draft } = true := by
      rw [check_facility_availability_status]
      exact hav
    simp only [action_reset_to_draft, h, if_false, hav2, if_true]
  · intro b1 es1 b2 b3 es2 hok1 hrst hok2
    rcases action_confirm_ok hok1 with ⟨hdraft, hav, hcan, rfl, rfl⟩
    simp only [action_reset_to_draft, reduceCtorEq, if_false] at hrst
    split at hrst
    · rw [Except.ok.injEq] at hrst
      rcases action_confirm_ok hok2 with ⟨hd2, ha2, hc2, rfl, rfl⟩
      rw [← hrst]
      exact decEquip_twice b.equipment_ids es
    · exact absurd hrst (by simp)

/-- Claim C10 counterexample: resetting a cancelled booking whose slot is
occupied by an active booking raises (the availability constraint re-fires
on the status write), although its status is not completed — refuting
"raising only for completed bookings". -/
theorem C10_counterexample :
    exCancelledClash.status ≠ BookingStatus.completed ∧
    (action_reset_to_draft [exCancelledClash, exActiveClash]
      exCancelledClash).isOk = false := by
  decide

/-- Witness for C10: resetting a lone confirmed booking succeeds, and a
confirm-reset-confirm chain on the fixture decrements both equipment
records twice. -/
theorem C10_witness :
    exBookingConfirmed.status ≠ BookingStatus.completed ∧
    check_facility_availability [] exBookingConfirmed = true ∧
    action_reset_to_draft [] exBookingConfirmed =
      .ok { exBookingConfirmed with status := BookingStatus.draft } ∧
    [{ exEquipRacket with quantity_available := 8 },
     { exEquipBalls with quantity_available := 18 }] =
      [exEquipRacket, exEquipBalls].map (fun e =>
        if exBooking.equipment_ids.contains e.id then
          { e with quantity_available := e.quantity_available - 2 }
        else e) := by
  have h1 : action_confirm [exBooking] [exEquipRacket, exEquipBalls]
      exBooking =
      .ok ({ exBooking with status := BookingStatus.confirmed },
        [{ exEquipRacket with quantity_available := 9 },
         { exEquipBalls with quantity_available := 19 }]) := by rfl
  have h2 : action_reset_to_draft [exBooking]
      { exBooking with status := BookingStatus.confirmed } =
      .ok { exBooking with status := BookingStatus.draft } := by rfl
  have h3 : action_confirm [exBooking]
      [{ exEquipRacket with quantity_available := 9 },
       { exEquipBalls with quantity_available := 19 }]
      { exBooking with status := BookingStatus.draft } =
      .ok ({ exBooking with status := BookingStatus.confirmed },
        [{ exEquipRacket with quantity_available := 8 },
         { exEquipBalls with quantity_available := 18 }]) := by rfl
  refine ⟨by decide, by decide, ?_, ?_⟩
  · exact (C10_reset_to_draft [] [] exBookingConfirmed).2.1 (by decide)
      (by decide)
  · exact (C10_reset_to_draft [exBooking] [exEquipRacket, exEquipBalls]
      exBooking).2.2 _ _ _ _ _ h1 h2 h3

/-! ### Claim C1: the no-overlap invariant -/

theorem pairViolation_iff (a c : Booking) :
    pairViolation a c = true ↔
      a.id ≠ c.id ∧ a.facility_id = c.facility_id ∧
      isActiveStatus a.status = true ∧ isActiveStatus c.status = true ∧
      a.start_datetime < c.end_datetime ∧ c.start_datetime < a.end_datetime := by
  simp [pairViolation, Bool.and_eq_true, bne_iff_ne, beq_iff_eq,
    decide_eq_true_eq, gt_iff_lt, and_assoc]

theorem pairViolation_self (a : Booking) : pairViolation a a = false := by
  simp [pairViolation]

theorem check_iff (st : List Booking) (b : Booking) :
    check_facility_availability st b = true ↔
      ∀ o ∈ st, ¬(o.id ≠ b.id ∧ o.facility_id = b.facility_id ∧
        isActiveStatus o.status = true ∧
        o.start_datetime < b.end_datetime ∧
        b.start_datetime < o.end_datetime) := by
  simp [check_facility_availability, List.any_eq_true, Bool.and_eq_true,
    bne_iff_ne, beq_iff_eq, decide_eq_true_eq, gt_iff_lt, and_assoc,
    not_and, Bool.not_eq_true]

theorem check_no_violation {st : List Booking} {b : Booking}
    (h : check_facility_availability st b = true) :
    ∀ o ∈ st, pairViolation o b = false ∧ pairViolation b o = false := by
  rw [check_iff] at h
  intro o ho
  have hno := h o ho
  constructor
  · rw [Bool.eq_false_iff]
    intro hv
    rw [pairViolation_iff] at hv
    exact hno ⟨hv.1, hv.2.1, hv.2.2.1, hv.2.2.2.2.1, hv.2.2.2.2.2⟩
  · rw [Bool.eq_false_iff]
    intro hv
    rw [pairViolation_iff] at hv
    exact hno ⟨Ne.symm hv.1, hv.2.1.symm, hv.2.2.2.1, hv.2.2.2.2.2,
      hv.2.2.2.2.1⟩

theorem noOverlapChk_iff (st : List Booking) :
    noOverlapChk st = true ↔
      ∀ a ∈ st, ∀ c ∈ st, pairViolation a c = false := by
  simp only [noOverlapChk, Bool.not_eq_true', List.any_eq_false,
    Bool.not_eq_true]

theorem noOverlap_append {st : List Booking} {b : Booking}
    (hinv : noOverlapChk st = true)
    (hav : check_facility_availability st b = true) :
    noOverlapChk (st ++ [b]) = true := by
  rw [noOverlapChk_iff] at hinv ⊢
  intro a ha c hc
  rcases List.mem_append.mp ha with ha2 | ha2 <;>
    rcases List.mem_append.mp hc with hc2 | hc2
  · exact hinv a ha2 c hc2
  · rw [List.mem_singleton.mp hc2]
    exact (check_no_violation hav a ha2).1
  · rw [List.mem_singleton.mp ha2]
    exact (check_no_violation hav c hc2).2
  · rw [List.mem_singleton.mp ha2, List.mem_singleton.mp hc2]
    exact pairViolation_self b

theorem noOverlap_update {st : List Booking} (i : Nat) {b2 : Booking}
    (hinv : noOverlapChk st = true)
    (hav : check_facility_availability st b2 = true) :
    noOverlapChk (st.map (fun o => if o.id == i then b2 else o)) = true := by
  rw [noOverlapChk_iff] at hinv ⊢
  intro a ha c hc
  rcases List.mem_map.mp ha with ⟨oa, hoa, rfl⟩
  rcases List.mem_map.mp hc with ⟨oc, hoc, rfl⟩
  by_cases h1 : oa.id == i <;> by_cases h2 : oc.id == i <;>
    simp only [h1, h2, if_true, if_false, Bool.false_eq_true]
  · exact pairViolation_self b2
  · exact (check_no_violation hav oc hoc).2
  · exact (check_no_violation hav oa hoa).1
  · exact hinv oa hoa oc hoc

theorem noOverlap_filter {st : List Booking} (p : Booking → Bool)
    (hinv : noOverlapChk st = true) :
    noOverlapChk (st.filter p) = true := by
  rw [noOverlapChk_iff] at hinv ⊢
  intro a ha c hc
  exact hinv a (List.mem_filter.mp ha).1 c (List.mem_filter.mp hc).1

theorem action_complete_ok2 {st : List Booking} {es : List Equipment}
    {b b2 : Booking} {es2 : List Equipment}
    (h : action_complete st es b = .ok (b2, es2)) :
    b2 = { b with status := BookingStatus.completed } ∧
    check_facility_availability st
      { b with status := BookingStatus.completed } = true := by
  simp only [action_complete] at h
  split at h
  · exact absurd h (by simp)
  · split at h
    · exact absurd h (by simp)
    · split at h
      · next hchk =>
        rw [Except.ok.injEq, Prod.mk.injEq] at h
        exact ⟨h.1.symm, hchk⟩
      · exact absurd h (by simp)

theorem action_cancel_ok2 {now : Int} {st : List Booking}
    {es : List Equipment} {b : Booking}
    {r : Booking × List Equipment × ℚ × ℚ}
    (h : action_cancel now st es b = .ok r) :
    r.1 = { b with status := BookingStatus.cancelled } ∧
    check_facility_availability st
      { b with status := BookingStatus.cancelled } = true := by
  simp only [action_cancel] at h
  split at h
  · exact absurd h (by simp)
  · split at h
    · exact absurd h (by simp)
    · split at h
      · next hchk =>
        rw [Except.ok.injEq] at h
        rw [← h]
        exact ⟨rfl, hchk⟩
      · exact absurd h (by simp)

theorem action_reset_ok {st : List Booking} {b b2 : Booking}
    (h : action_reset_to_draft st b = .ok b2) :
    b2 = { b with status := BookingStatus.draft } ∧
    check_facility_availability st
      { b with status := BookingStatus.draft } = true := by
  simp only [action_reset_to_draft] at h
  split at h
  · exact absurd h (by simp)
  · split at h
    · next hchk =>
      rw [Except.ok.injEq] at h
      exact ⟨h.symm, hchk⟩
    · exact absurd h (by simp)

theorem create_booking_ok {env : Env} {st : List Booking} {vals : Booking}
    {st2 : List Booking} {b : Booking}
    (h : create_booking env st vals = .ok (st2, b)) :
    st2 = st ++ [b] ∧ check_facility_availability st b = true := by
  simp only [create_booking] at h
  split at h
  · next hc =>
    rw [Bool.and_eq_true, Bool.and_eq_true] at hc
    rw [Except.ok.injEq, Prod.mk.injEq] at h
    refine ⟨by rw [← h.1, ← h.2], ?_⟩
    rw [← h.2]
    exact hc.1.2
  · exact absurd h (by simp)

theorem write_booking_ok {env : Env} {st : List Booking} {b2 : Booking}
    {st2 : List Booking} (h : write_booking env st b2 = .ok st2) :
    st2 = st.map (fun o => if o.id == b2.id then b2 else o) ∧
    check_facility_availability st b2 = true := by
  simp only [write_booking] at h
  split at h
  · next hc =>
    rw [Bool.and_eq_true, Bool.and_eq_true] at hc
    rw [Except.ok.injEq] at h
    exact ⟨h.symm, hc.1.2⟩
  · exact absurd h (by simp)

/-- Claim C1: the no-overlap predicate — no two distinct draft or
confirmed bookings of the same facility have overlapping half-open
intervals — holds in every state reachable by module transitions from an
empty booking table, because every create and every update that would
introduce such an overlap is rejected by the availability constraint:
a write whose availability check fails returns an error, and a creation
that returns ok passed the check. -/
theorem C1_no_overlap_invariant :
    (∀ (env : Env) (es0 : List Equipment) (s : SysState),
      ReachableState env es0 s → noOverlapChk s.bookings = true) ∧
    (∀ (env : Env) (st : List Booking) (b2 : Booking),
      check_facility_availability st b2 = false →
      (write_booking env st b2).isOk = false) ∧
    (∀ (env : Env) (st : List Booking) (vals : Booking)
      (st2 : List Booking) (b : Booking),
      create_booking env st vals = .ok (st2, b) →
      check_facility_availability st b = true) := by
  refine ⟨?_, ?_, ?_⟩
  · intro env es0 s h
    induction h with
    | refl => rfl
    | tail hsteps hstep ih =>
      cases hstep with
      | create vals st2 b hc =>
        rcases create_booking_ok hc with ⟨rfl, hav⟩
        exact noOverlap_append ih hav
      | update b2 st2 hw =>
        rcases write_booking_ok hw with ⟨rfl, hav⟩
        exact noOverlap_update b2.id ih hav
      | confirm b b2 es2 hb hact =>
        rcases action_confirm_ok hact with ⟨-, hav, -, rfl, rfl⟩
        refine noOverlap_update b.id ih ?_
        rw [check_facility_availability_status]
        exact hav
      | complete b b2 es2 hb hact =>
        rcases action_complete_ok2 hact with ⟨rfl, hav⟩
        exact noOverlap_update b.id ih hav
      | cancel now b b2 es2 pct amt hb hact =>
        rcases action_cancel_ok2 hact with ⟨hb2, hav⟩
        rw [show (b2 = { b with status := BookingStatus.cancelled }) from hb2]
        exact noOverlap_update b.id ih hav
      | reset b b2 hb hact =>
        rcases action_reset_ok hact with ⟨rfl, hav⟩
        exact noOverlap_update b.id ih hav
      | equipCheckout i q e e2 hg hc => exact ih
      | equipReturn i q e e2 hg hc => exact ih
      | unlink i => exact noOverlap_filter _ ih
  · intro env st b2 h
    simp [write_booking, h, Except.isOk, Except.toBool]
  · intro env st vals st2 b h
    exact (create_booking_ok h).2

def exCreated : Booking := { exBooking with id := 1, total_cost := 64 }

theorem create_exBooking_eval :
    create_booking (mkExEnv []) [] exBooking = .ok ([exCreated], exCreated) := by
  have hr1 : rateOf [exEquipRacket, exEquipBalls] 1 = 5 := rfl
  have hr2 : rateOf [exEquipRacket, exEquipBalls] 2 = 2 := rfl
  have hm : findActiveMembership ([] : List Membership) 7 10 = none := rfl
  norm_num [create_booking, freshId, exBooking, exCreated, compute_duration,
    round2, compute_total_cost, discountFor,
    validate_booking_dates, check_facility_availability,
    validate_operating_hours, hourOfDay, dateOf, mkExEnv, exFacility,
    hm, hr1, hr2]
/-- Witness for C1: a state with one concretely created booking is
reachable and satisfies the no-overlap invariant. -/
theorem C1_witness :
    ReachableState (mkExEnv []) [] ⟨[exCreated], []⟩ ∧
    noOverlapChk [exCreated] = true := by
  have hstep : Step (mkExEnv []) ⟨[], []⟩ ⟨[exCreated], []⟩ :=
    Step.create ⟨[], []⟩ exBooking [exCreated] exCreated create_exBooking_eval
  have hreach : ReachableState (mkExEnv []) [] ⟨[exCreated], []⟩ :=
    Relation.ReflTransGen.single hstep
  exact ⟨hreach, C1_no_overlap_invariant.1 (mkExEnv []) [] _ hreach⟩

/-! ### Claim C5: daily recurrence generation -/

theorem validate_hours_eq (f : Facility) (b : Booking) :
    validate_operating_hours f b =
      (!(decide (hourOfDay b.start_datetime < f.operating_hours_start)) &&
       !(decide (hourOfDay b.end_datetime > f.operating_hours_end))) := by
  unfold validate_operating_hours
  rw [ite_self]

theorem hourOfDay_add_day (t : Int) : hourOfDay (t + 1440) = hourOfDay t := by
  unfold hourOfDay
  congr 2
  show (t + 1440) % 1440 = t % 1440
  omega

def mkCreated (env : Env) (st : List Booking) (vals : Booking) : Booking :=
  let b1 := { vals with id := freshId st, duration := compute_duration vals }
  { b1 with total_cost := compute_total_cost env b1 }

theorem create_booking_eq (env : Env) (st : List Booking) (vals : Booking) :
    create_booking env st vals =
      if validate_booking_dates (mkCreated env st vals) &&
         check_facility_availability st (mkCreated env st vals) &&
         validate_operating_hours (env.fac (mkCreated env st vals).facility_id)
           (mkCreated env st vals)
      then .ok (st ++ [mkCreated env st vals], mkCreated env st vals)
      else .error "Booking constraints failed" := rfl

theorem freshId_singleton (b : Booking) : freshId [b] = b.id + 1 := by
  simp [freshId]

theorem freshId_pair (b c : Booking) (h : b.id ≤ c.id) :
    freshId [b, c] = c.id + 1 := by
  simp [freshId]
  omega

def dailyChild1 (env : Env) (b : Booking) : Booking :=
  mkCreated env [b] (childVals b (b.start_datetime + 1440) (b.end_datetime + 1440))

def dailyChild2 (env : Env) (b : Booking) : Booking :=
  mkCreated env [b, dailyChild1 env b]
    (childVals b (b.start_datetime + 1440 + 1440) (b.end_datetime + 1440 + 1440))

theorem generate_daily3_spec (env : Env) (b : Booking)
    (hrec : b.is_recurring = true)
    (hty : b.recurrence_type = some RecurrenceType.daily)
    (hcnt : b.recurrence_count = 3)
    (hend : b.recurrence_end_date = none)
    (hst : b.status = BookingStatus.confirmed)
    (hvalid : b.start_datetime < b.end_datetime)
    (hdur : b.end_datetime ≤ b.start_datetime + 1440)
    (hhours : validate_operating_hours (env.fac b.facility_id) b = true)
    (fuel : Nat) (hfuel : 3 ≤ fuel) :
    generate_recurring_bookings env fuel [b] b =
      .ok ([b, dailyChild1 env b, dailyChild2 env b],
        [dailyChild1 env b, dailyChild2 env b]) := by
  obtain ⟨n, rfl⟩ : ∃ n, fuel = n + 3 := ⟨fuel - 3, by omega⟩
  have hC1id : (dailyChild1 env b).id = b.id + 1 := freshId_singleton b
  have hC2id : (dailyChild2 env b).id = b.id + 2 := by
    have h := freshId_pair b (dailyChild1 env b) (by omega)
    rw [hC1id] at h
    exact h
  -- iteration 1: the slot one day later is free and its child is created
  have hov1 : recurrenceOverlapExists [b] b.facility_id
      (b.start_datetime + 1440) (b.end_datetime + 1440) = false := by
    have h1 : decide (b.end_datetime > b.start_datetime + 1440) = false :=
      decide_eq_false (by omega)
    simp [recurrenceOverlapExists, h1]
  have hc1dates : validate_booking_dates (dailyChild1 env b) = true := by
    simp only [validate_booking_dates]
    exact decide_eq_true (by
      show b.start_datetime + 1440 < b.end_datetime + 1440
      omega)
  have hc1chk : check_facility_availability [b] (dailyChild1 env b) = true := by
    have h2 : decide (b.end_datetime > (dailyChild1 env b).start_datetime) =
        false := by
      exact decide_eq_false (by
        show ¬ b.end_datetime > b.start_datetime + 1440
        omega)
    simp [check_facility_availability, h2]
  have hc1hours : validate_operating_hours
      (env.fac (dailyChild1 env b).facility_id) (dailyChild1 env b) = true := by
    rw [validate_hours_eq] at hhours ⊢
    show (!(decide (hourOfDay (b.start_datetime + 1440) <
        (env.fac b.facility_id).operating_hours_start)) &&
      !(decide (hourOfDay (b.end_datetime + 1440) >
        (env.fac b.facility_id).operating_hours_end))) = true
    rw [hourOfDay_add_day, hourOfDay_add_day]
    exact hhours
  have hcreate1 : create_booking env [b]
      (childVals b (b.start_datetime + 1440) (b.end_datetime + 1440)) =
      .ok ([b, dailyChild1 env b], dailyChild1 env b) := by
    rw [create_booking_eq]
    rw [if_pos (by
      rw [Bool.and_eq_true, Bool.and_eq_true]
      exact ⟨⟨hc1dates, hc1chk⟩, hc1hours⟩)]
    rfl
  -- iteration 2
  have hov2 : recurrenceOverlapExists [b, dailyChild1 env b] b.facility_id
      (b.start_datetime + 1440 + 1440) (b.end_datetime + 1440 + 1440) =
      false := by
    have h1 : decide (b.end_datetime > b.start_datetime + 1440 + 1440) =
        false := decide_eq_false (by omega)
    have h2 : decide ((dailyChild1 env b).end_datetime >
        b.start_datetime + 1440 + 1440) = false := by
      exact decide_eq_false (by
        show ¬ b.end_datetime + 1440 > b.start_datetime + 1440 + 1440
        omega)
    simp [recurrenceOverlapExists, h1, h2]
  have hc2dates : validate_booking_dates (dailyChild2 env b) = true := by
    simp only [validate_booking_dates]
    exact decide_eq_true (by
      show b.start_datetime + 1440 + 1440 < b.end_datetime + 1440 + 1440
      omega)
  have hc2chk : check_facility_availability [b, dailyChild1 env b]
      (dailyChild2 env b) = true := by
    have h2 : decide (b.end_datetime > (dailyChild2 env b).start_datetime) =
        false := by
      exact decide_eq_false (by
        show ¬ b.end_datetime > b.start_datetime + 1440 + 1440
        omega)
    have h3 : decide ((dailyChild1 env b).end_datetime >
        (dailyChild2 env b).start_datetime) = false := by
      exact decide_eq_false (by
        show ¬ b.end_datetime + 1440 > b.start_datetime + 1440 + 1440
        omega)
    simp [check_facility_availability, h2, h3]
  have hc2hours : validate_operating_hours
      (env.fac (dailyChild2 env b).facility_id) (dailyChild2 env b) = true := by
    rw [validate_hours_eq] at hhours ⊢
    show (!(decide (hourOfDay (b.start_datetime + 1440 + 1440) <
        (env.fac b.facility_id).operating_hours_start)) &&
      !(decide (hourOfDay (b.end_datetime + 1440 + 1440) >
        (env.fac b.facility_id).operating_hours_end))) = true
    rw [hourOfDay_add_day, hourOfDay_add_day, hourOfDay_add_day,
      hourOfDay_add_day]
    exact hhours
  have hcreate2 : create_booking env [b, dailyChild1 env b]
      (childVals b (b.start_datetime + 1440 + 1440)
        (b.end_datetime + 1440 + 1440)) =
      .ok ([b, dailyChild1 env b, dailyChild2 env b], dailyChild2 env b) := by
    rw [create_booking_eq]
    rw [if_pos (by
      rw [Bool.and_eq_true, Bool.and_eq_true]
      exact ⟨⟨hc2dates, hc2chk⟩, hc2hours⟩)]
    rfl
  -- assemble the three loop iterations
  simp only [generate_recurring_bookings, hrec, hty, hcnt, hend,
    Bool.not_true, Bool.false_eq_true, if_false]
  rw [if_neg (by norm_num)]
  rw [show n + 3 = (n + 2) + 1 from rfl]
  rw [genLoop]
  simp only [advanceDT, hcnt, hend]
  rw [if_neg (by norm_num), if_neg (by simp)]
  rw [if_neg (by rw [hov1]; exact fun hc => by cases hc)]
  simp only [hcreate1, List.nil_append]
  rw [show n + 2 = (n + 1) + 1 from rfl]
  rw [genLoop]
  simp only [advanceDT, hcnt, hend]
  rw [if_neg (by norm_num), if_neg (by simp)]
  rw [if_neg (by rw [hov2]; exact fun hc => by cases hc)]
  simp only [hcreate2]
  rw [genLoop]
  simp only [advanceDT, hcnt, hend]
  rw [if_pos (by norm_num)]
  simp

theorem exParent_hours :
    validate_operating_hours ((mkExEnv []).fac exParent.facility_id)
      exParent = true := by
  norm_num [validate_operating_hours, hourOfDay, dateOf, mkExEnv, exFacility,
    exParent, exBooking]

/-- Claim C5 (amended): for a confirmed booking with is_recurring enabled,
recurrence type daily and recurrence_count = 3 (and no conflicting
bookings: here the parent is the only booking, lasts at most one day, and
lies within operating hours), generating recurring bookings creates
exactly 2 child bookings — not 3 — whose start datetimes are the parent
start plus 1 and 2 days: the loop breaks when the occurrence counter
reaches recurrence_count before creating the third occurrence, so the
parent counts as the first of the 3 occurrences.  Each child has status
draft, is_recurring false and parent_booking_id pointing to the
generating booking. -/
theorem C5_daily_recurrence_count3 (env : Env) (b : Booking) (fuel : Nat)
    (hrec : b.is_recurring = true)
    (hty : b.recurrence_type = some RecurrenceType.daily)
    (hcnt : b.recurrence_count = 3)
    (hend : b.recurrence_end_date = none)
    (hst : b.status = BookingStatus.confirmed)
    (hvalid : b.start_datetime < b.end_datetime)
    (hdur : b.end_datetime ≤ b.start_datetime + 1440)
    (hhours : validate_operating_hours (env.fac b.facility_id) b = true)
    (hfuel : 3 ≤ fuel) :
    ∃ c1 c2,
      generate_recurring_bookings env fuel [b] b =
        .ok ([b, c1, c2], [c1, c2]) ∧
      c1.start_datetime = b.start_datetime + 1440 ∧
      c2.start_datetime = b.start_datetime + 2880 ∧
      c1.status = BookingStatus.draft ∧ c2.status = BookingStatus.draft ∧
      c1.is_recurring = false ∧ c2.is_recurring = false ∧
      c1.parent_booking_id = some b.id ∧
      c2.parent_booking_id = some b.id := by
  refine ⟨dailyChild1 env b, dailyChild2 env b,
    generate_daily3_spec env b hrec hty hcnt hend hst hvalid hdur hhours
      fuel hfuel,
    rfl, ?_, rfl, rfl, rfl, rfl, rfl, rfl⟩
  show b.start_datetime + 1440 + 1440 = b.start_datetime + 2880
  omega

/-- Claim C5 counterexample: the concrete confirmed daily-recurring
fixture with recurrence_count = 3 produces 2 child bookings, not the
claimed 3. -/
theorem C5_counterexample :
    (generate_recurring_bookings (mkExEnv []) 10 [exParent]
        exParent).toOption.map (fun r => r.2.length) = some 2 ∧
    some (2 : Nat) ≠ some 3 := by
  constructor
  · rw [generate_daily3_spec (mkExEnv []) exParent rfl rfl rfl rfl rfl
      (by decide) (by decide) exParent_hours 10 (by norm_num)]
    rfl
  · decide

/-- Witness for C5 (amended) at the recurring fixture booking. -/
theorem C5_witness :
    exParent.is_recurring = true ∧
    exParent.recurrence_count = 3 ∧
    (∃ c1 c2,
      generate_recurring_bookings (mkExEnv []) 10 [exParent] exParent =
        .ok ([exParent, c1, c2], [c1, c2]) ∧
      c1.start_datetime = exParent.start_datetime + 1440 ∧
      c2.start_datetime = exParent.start_datetime + 2880 ∧
      c1.status = BookingStatus.draft ∧ c2.status = BookingStatus.draft ∧
      c1.is_recurring = false ∧ c2.is_recurring = false ∧
      c1.parent_booking_id = some exParent.id ∧
      c2.parent_booking_id = some exParent.id) :=
  ⟨rfl, rfl,
   C5_daily_recurrence_count3 (mkExEnv []) exParent 10 rfl rfl rfl rfl rfl
     (by decide) (by decide) exParent_hours (by norm_num)⟩
end SportFacility

